import Mathlib

/-!
Verification of the Cumulus SyncGranule ingest engine.

The definitions below are a shallow embedding of the `sync-granule` task
(`download` and `syncGranule`) and of the external components it relies on
(duplicate-policy evaluation, the per-granule lock table).  Pure control flow
is translated directly; asynchronous effects (adapter construction, per-granule
ingest calls, adapter teardown) are recorded in an explicit effect trace.
-/

namespace Cumulus

/-- A granule descriptor, identified by its granule id. -/
structure Granule where
  granuleId : String
deriving DecidableEq, Repr

/-- The `private` bucket configuration (`event.meta.buckets.private`). -/
structure BucketConfig where
  name : String
deriving DecidableEq, Repr

/-- The bucket map carried in `event.meta.buckets`. -/
structure Buckets where
  privateBucket : BucketConfig
deriving DecidableEq, Repr

/-- Collection configuration from `event.meta.collection`; `duplicateHandling`
and `process` are optional fields of the JSON object. -/
structure Collection where
  name : String
  version : String
  duplicateHandling : Option String
  process : Option String
deriving DecidableEq, Repr

/-- Provider configuration from `event.meta.provider`. -/
structure Provider where
  id : String
  protocol : String
deriving DecidableEq, Repr

/-- The `meta` section of a Cumulus message.  `provider` and `collection` are
optional: the task checks for a missing provider explicitly. -/
structure Meta where
  stack : String
  buckets : Buckets
  provider : Option Provider
  collection : Option Collection
deriving DecidableEq, Repr

/-- The task payload: the list of granules to ingest. -/
structure Payload where
  granules : List Granule
deriving DecidableEq, Repr

/-- A Cumulus message as consumed by `syncGranule`. -/
structure Event where
  meta : Meta
  payload : Payload
deriving DecidableEq, Repr

/-- JavaScript error values as far as the task inspects them: raw errors carry
a name, a message and an optional `details.status`; the remaining constructors
are the error classes from `@cumulus/common/errors` that the task itself
constructs. -/
inductive JsErr where
  | raw (name message : String) (detailsStatus : Option String)
  | remoteResource (message : String)
  | connectionTimeout (message : String)
  | resourcesLocked (message : String)
  | providerNotFound (message : String)
deriving DecidableEq, Repr

/-- `e.toString()` for a JavaScript Error: `name + ": " + message`. -/
def JsErr.toStr : JsErr → String
  | .raw n m _ => n ++ ": " ++ m
  | .remoteResource m => "RemoteResourceError: " ++ m
  | .connectionTimeout m => "ConnectionTimeout: " ++ m
  | .resourcesLocked m => "ResourcesLockedError: " ++ m
  | .providerNotFound m => "ProviderNotFound: " ++ m

/-- `e.details && e.details.status`: only raw transport errors carry details. -/
def JsErr.detailsStatus : JsErr → Option String
  | .raw _ _ ds => ds
  | _ => none

/-- `xs.isPrefixOf ys` on character lists, executable. -/
def listIsPrefix : List Char → List Char → Bool
  | [], _ => true
  | _ :: _, [] => false
  | a :: as, b :: bs => a = b && listIsPrefix as bs

/-- Substring search on character lists. -/
def listContainsSub (pat : List Char) : List Char → Bool
  | [] => listIsPrefix pat []
  | a :: rest => listIsPrefix pat (a :: rest) || listContainsSub pat rest

/-- `s.includes(pat)` from JavaScript, as used on `e.toString()`. -/
def strContains (s pat : String) : Bool :=
  listContainsSub pat.data s.data

/-- The error mapping in `syncGranule`'s catch handler: errors whose string
form contains `ECONNREFUSED` become `RemoteResourceError`, otherwise errors
with `details.status === 'timeout'` become `ConnectionTimeout`, and every
other error is rethrown unchanged. -/
def mapDownloadError (e : JsErr) : JsErr :=
  if strContains e.toStr "ECONNREFUSED" then
    JsErr.remoteResource "Connection Refused"
  else if e.detailsStatus = some "timeout" then
    JsErr.connectionTimeout "connection Timed out"
  else e

/-- The state of the external per-(provider, granule) lock entry relevant to a
`download` call: whether the key is held, and until when.  The source receives
the bucket and provider used for locking, but its `lock.proceed` and
`lock.removeLock` calls are commented out, so this state is never consulted. -/
structure LockState where
  held : Bool
  expiresAt : Nat
deriving DecidableEq, Repr

/-- Observable effects of a `syncGranule` invocation. -/
inductive Effect where
  | constructAdapter (duplicateHandling : Option String) (fileStagingDir : String)
  | ingestStart (granuleId : String)
  | adapterEnd
deriving DecidableEq, Repr

/-- Arguments passed to the ingest adapter constructor
(`new IngestClass(buckets, collection, provider, fileStagingDir,
forceDownload, duplicateHandling)`). -/
structure AdapterArgs where
  buckets : Buckets
  collection : Option Collection
  provider : Provider
  fileStagingDir : String
  forceDownload : Bool
  duplicateHandling : Option String

/-- An ingest adapter instance: whether `ingest.end` is defined, and the
per-granule `ingest.ingest` behaviour. -/
structure Adapter where
  hasEnd : Bool
  run : Granule → Except JsErr Granule

/-- `path.join(a, b)` for the plain segment names used by the task. -/
def pathJoin (a b : String) : String := a ++ "/" ++ b

/-- The `duplicateHandling` resolution in `syncGranule`: start from `null`,
and take `collection.duplicateHandling` only when the collection is present
and the field is truthy (a non-empty string). -/
def resolveDuplicateHandling (collection : Option Collection) : Option String :=
  match collection with
  | none => none
  | some c =>
    match c.duplicateHandling with
    | none => none
    | some s => if s = "" then none else some s

/-- `if (collection && collection.process) output.process = collection.process`. -/
def resolveProcess (collection : Option Collection) : Option String :=
  match collection with
  | none => none
  | some c =>
    match c.process with
    | none => none
    | some p => if p = "" then none else some p

/-- The sequential `for (const g of granules)` loop of `download`: each
granule is ingested in turn; the result is pushed on success, and the first
failure is rethrown as is, discarding the accumulated results. -/
def downloadGo (f : Granule → Except JsErr Granule) :
    List Granule → Except JsErr (List Granule) × List Effect
  | [] => (Except.ok [], [])
  | g :: rest =>
    match f g with
    | Except.error e => (Except.error e, [Effect.ingestStart g.granuleId])
    | Except.ok r =>
      let p := downloadGo f rest
      (p.fst.map (fun rs => r :: rs), Effect.ingestStart g.granuleId :: p.snd)

/-- `download(ingest, bucket, provider, granules)` from the task.  The lock
acquisition is short-circuited in the source (`const proceed = true`, the
`lock.proceed` call is commented out), so the lock-table state parameter is
never consulted; the `ResourcesLockedError` branch mirrors the dead
`if (!proceed)` check. -/
def downloadRun (lockState : LockState) (bucket : String) (provider : Provider)
    (f : Granule → Except JsErr Granule) (granules : List Granule) :
    Except JsErr (List Granule) × List Effect :=
  let proceed := true
  if proceed = false then
    (Except.error (JsErr.resourcesLocked "Download lock remained in place after multiple tries"), [])
  else
    downloadGo f granules

/-- The task output: the updated granules, plus `process` when the collection
configures one. -/
structure Output where
  granules : List Granule
  process : Option String
deriving DecidableEq, Repr

/-- `syncGranule(event)`: resolve configuration from `event.meta`, fail with
`ProviderNotFound` when no provider is given, otherwise construct the ingest
adapter, run `download`, call `ingest.end` (when defined) on both the success
and the failure path, and map download errors through the catch handler. -/
def syncGranuleRun (mkAdapter : AdapterArgs → Adapter) (lockState : LockState)
    (event : Event) : Except JsErr Output × List Effect :=
  let input := event.payload
  let stack := event.meta.stack
  let buckets := event.meta.buckets
  let collection := event.meta.collection
  let forceDownload := false
  let downloadBucket := event.meta.buckets.privateBucket.name
  let duplicateHandling := resolveDuplicateHandling collection
  let fileStagingDir := pathJoin "file-staging" stack
  match event.meta.provider with
  | none => (Except.error (JsErr.providerNotFound "Provider info not provided"), [])
  | some provider =>
    let ingest := mkAdapter
      ⟨buckets, collection, provider, fileStagingDir, forceDownload, duplicateHandling⟩
    let d := downloadRun lockState downloadBucket provider ingest.run input.granules
    let endEffects := if ingest.hasEnd then [Effect.adapterEnd] else []
    match d.fst with
    | Except.ok gs =>
      (Except.ok ⟨gs, resolveProcess collection⟩,
        Effect.constructAdapter duplicateHandling fileStagingDir :: (d.snd ++ endEffects))
    | Except.error e =>
      (Except.error (mapDownloadError e),
        Effect.constructAdapter duplicateHandling fileStagingDir :: (d.snd ++ endEffects))

/-- Association-list lookup, newest entry first. -/
def alookup {κ α : Type} [DecidableEq κ] : List (κ × α) → κ → Option α
  | [], _ => none
  | p :: rest, k => if p.fst = k then some p.snd else alookup rest k

/-- Association-list write: the new binding shadows any older one. -/
def ainsert {κ α : Type} [DecidableEq κ] (l : List (κ × α)) (k : κ) (v : α) :
    List (κ × α) :=
  (k, v) :: l

/-- Association-list delete: removes every binding for the key. -/
def aremove {κ α : Type} [DecidableEq κ] : List (κ × α) → κ → List (κ × α)
  | [], _ => []
  | p :: rest, k => if p.fst = k then aremove rest k else p :: aremove rest k

/-- Modelled from the spec: the `DuplicateHandlingMode` policy enumeration
(the evaluator itself lives in the `@cumulus/ingest` granule module, which is
absent from the sources). -/
inductive DuplicateHandlingMode where
  | error
  | skip
  | replace
  | version
deriving DecidableEq, Repr

/-- A file already staged at a destination key: its bytes and checksum. -/
structure StagedFile where
  bytes : String
  checksum : Nat
deriving DecidableEq, Repr

/-- A freshly fetched file about to be staged. -/
structure IncomingFile where
  destKey : String
  bytes : String
  checksum : Nat
deriving DecidableEq, Repr

/-- Modelled from the spec: the duplicate-policy decisions. -/
inductive Decision where
  | proceed
  | reject
  | skipKeepExisting
  | replace
  | version
deriving DecidableEq, Repr

/-- Modelled from the spec: the duplicate-policy evaluator
`evaluate(existingFile, incoming, mode)` of the `@cumulus/ingest` granule
module (absent from the sources).  With no existing file the fetch proceeds;
with an existing file, mode `error` rejects exactly when the checksums
differ, `skip` keeps the existing file, `replace` overwrites, and `version`
retains both. -/
def evaluate (existing : Option StagedFile) (incoming : IncomingFile)
    (mode : DuplicateHandlingMode) : Decision :=
  match existing with
  | none => Decision.proceed
  | some ex =>
    match mode with
    | DuplicateHandlingMode.error =>
      if ex.checksum = incoming.checksum then Decision.proceed else Decision.reject
    | DuplicateHandlingMode.skip => Decision.skipKeepExisting
    | DuplicateHandlingMode.replace => Decision.replace
    | DuplicateHandlingMode.version => Decision.version

/-- The per-file output record: destination key plus the `duplicate_found`
flag recorded when a pre-existing object was encountered. -/
structure FileRecord where
  destKey : String
  duplicate_found : Bool
deriving DecidableEq, Repr

/-- Modelled from the spec: the per-file staging step of the granule sync
orchestrator (`Granule.ingestFile` of the `@cumulus/ingest` package, absent
from the sources).  The staging area is a map from destination key to staged
file; the step evaluates the duplicate policy against the existing object and
then stages, skips, replaces or versions the incoming file, raising a
duplicate-file error on `reject`. -/
def ingestFileSpec (store : List (String × StagedFile)) (incoming : IncomingFile)
    (mode : DuplicateHandlingMode) :
    Except JsErr (List (String × StagedFile) × FileRecord) :=
  let existing := alookup store incoming.destKey
  match evaluate existing incoming mode with
  | Decision.proceed =>
    Except.ok (ainsert store incoming.destKey ⟨incoming.bytes, incoming.checksum⟩,
      ⟨incoming.destKey, existing.isSome⟩)
  | Decision.reject =>
    Except.error (JsErr.raw "DuplicateFile" ("duplicate file found at " ++ incoming.destKey) none)
  | Decision.skipKeepExisting =>
    Except.ok (store, ⟨incoming.destKey, true⟩)
  | Decision.replace =>
    Except.ok (ainsert store incoming.destKey ⟨incoming.bytes, incoming.checksum⟩,
      ⟨incoming.destKey, true⟩)
  | Decision.version =>
    Except.ok (ainsert store (incoming.destKey ++ ".v") ⟨incoming.bytes, incoming.checksum⟩,
      ⟨incoming.destKey, true⟩)

/-- A lock-table key: `(providerId, granuleId)`. -/
abbrev LockKey := Prod String String

/-- Modelled from the spec: a lock-table entry carries its holder and a TTL
expiry (the lock module of `@cumulus/ingest` is absent from the sources). -/
structure LockEntry where
  owner : String
  expiresAt : Nat
deriving DecidableEq, Repr

/-- Modelled from the spec: lock acquisition as an atomic conditional insert
into the shared table keyed by `(providerId, granuleId)`.  The insert fails
when the key exists and is unexpired; an expired entry is reclaimed. -/
def acquire (tbl : List (LockKey × LockEntry)) (k : LockKey) (owner : String)
    (now ttl : Nat) : Option (List (LockKey × LockEntry)) :=
  match alookup tbl k with
  | some e =>
    if now < e.expiresAt then none
    else some (ainsert tbl k ⟨owner, now + ttl⟩)
  | none => some (ainsert tbl k ⟨owner, now + ttl⟩)

/-- Modelled from the spec: lock release deletes the key from the table. -/
def release (tbl : List (LockKey × LockEntry)) (k : LockKey) :
    List (LockKey × LockEntry) :=
  aremove tbl k

/-- An atomic operation on the shared lock table, as issued by some
concurrent orchestrator instance. -/
inductive LockOp where
  | acq (k : LockKey) (owner : String) (now ttl : Nat)
  | rel (k : LockKey)
deriving DecidableEq, Repr

/-- Apply one atomic lock-table operation; a failed conditional insert leaves
the table unchanged. -/
def applyLockOp (tbl : List (LockKey × LockEntry)) : LockOp → List (LockKey × LockEntry)
  | LockOp.acq k o now ttl => (acquire tbl k o now ttl).getD tbl
  | LockOp.rel k => release tbl k

/-- Run an interleaving of atomic lock-table operations. -/
def runLockOps (tbl : List (LockKey × LockEntry)) : List LockOp → List (LockKey × LockEntry)
  | [] => tbl
  | op :: rest => runLockOps (applyLockOp tbl op) rest

/-- A lock state in which nobody holds the key. -/
def lockFree : LockState := ⟨false, 0⟩

/-- A lock state in which the key is held and unexpired for any realistic
maximum wait. -/
def lockHeldForever : LockState := ⟨true, 1000000000⟩

/-- A concrete provider. -/
def provX : Provider := ⟨"s3-provider", "s3"⟩

/-- Concrete granules. -/
def gA : Granule := ⟨"granule-A"⟩

def gB : Granule := ⟨"granule-B"⟩

def gBad : Granule := ⟨"granule-bad"⟩

/-- An ingest behaviour that succeeds on every granule. -/
def ingestOk : Granule → Except JsErr Granule := fun g => Except.ok g

/-- A concrete ingest error with no attached progress information. -/
def e0 : JsErr := JsErr.raw "Error" "boom" none

/-- An ingest behaviour that fails on the granule `granule-bad` only. -/
def ingestFailBad : Granule → Except JsErr Granule :=
  fun g => if g.granuleId = "granule-bad" then Except.error e0 else Except.ok g

/-- An adapter factory whose adapters have no `end` and always succeed. -/
def mkNop : AdapterArgs → Adapter := fun _ => ⟨false, fun g => Except.ok g⟩

/-- An adapter factory whose adapters define `end` and always succeed. -/
def mkConstEnd : AdapterArgs → Adapter := fun _ => ⟨true, fun g => Except.ok g⟩

/-- An adapter factory whose adapters define `end` and fail with an error
that both contains `ECONNREFUSED` in its string form and carries
`details.status = 'timeout'`. -/
def mkRefusedTimeout : AdapterArgs → Adapter :=
  fun _ => ⟨true, fun _ =>
    Except.error (JsErr.raw "Error" "connect ECONNREFUSED 10.0.0.1:21" (some "timeout"))⟩

/-- A collection that does not specify a duplicate-handling mode. -/
def collNoDH : Collection := ⟨"MOD09GQ", "006", none, none⟩

/-- A different collection, also without a duplicate-handling mode. -/
def collOther : Collection := ⟨"OTHER-COLLECTION", "001", none, none⟩

/-- An event whose collection lacks `duplicateHandling`, with no granules. -/
def eventNoDH : Event := ⟨⟨"test-stack", ⟨⟨"priv-bucket"⟩⟩, some provX, some collNoDH⟩, ⟨[]⟩⟩

/-- The same event with a different collection. -/
def eventCollB : Event := ⟨⟨"test-stack", ⟨⟨"priv-bucket"⟩⟩, some provX, some collOther⟩, ⟨[]⟩⟩

/-- An event whose metadata contains no provider. -/
def eventNoProv : Event := ⟨⟨"test-stack", ⟨⟨"priv-bucket"⟩⟩, none, some collNoDH⟩, ⟨[gA]⟩⟩

/-- An event with one granule to ingest. -/
def eventOneGranule : Event := ⟨⟨"test-stack", ⟨⟨"priv-bucket"⟩⟩, some provX, some collNoDH⟩, ⟨[gA]⟩⟩

/-- A concrete staging store holding one file. -/
def storeW : List (String × StagedFile) := [("stage/f1.hdf", ⟨"old-bytes", 111⟩)]

/-- An incoming refetch of the same destination key with different bytes and
checksum. -/
def incomingW : IncomingFile := ⟨"stage/f1.hdf", "new-bytes", 222⟩

/-- A concrete lock key and a distinct second key. -/
def kW : LockKey := ("prov-1", "granule-A")

def kOther : LockKey := ("prov-2", "granule-B")

/-- An interleaved operation on an unrelated key. -/
def opsW : List LockOp := [LockOp.acq kOther "w3" 50 10]

/-- The table after a first successful acquisition of `kW` at time 5 with
TTL 100. -/
def tbl1W : List (LockKey × LockEntry) := ainsert [] kW ⟨"w1", 105⟩

/-- Modelled from the spec: the collection identifier used to scope staged
files, `<name>___<version>` (`constructCollectionId` of `@cumulus/common`,
absent from the sources; the integration tests build their expected staged
paths from it). -/
def constructCollectionId (name version : String) : String :=
  name ++ "___" ++ version

/-- Modelled from the spec: the per-file staging destination key completed by
the granule class of `@cumulus/ingest` (absent from the sources), which
receives the task's stack-scoped staging prefix together with the collection:
the prefix, extended with the collection identifier and the file name. -/
def destinationKey (stagingPrefix collectionId fileName : String) : String :=
  pathJoin (pathJoin stagingPrefix collectionId) fileName

/-- Number of adapter-teardown events in an effect trace. -/
def countAdapterEnd : List Effect → Nat
  | [] => 0
  | e :: rest =>
    (match e with
     | Effect.adapterEnd => 1
     | _ => 0) + countAdapterEnd rest

theorem countAdapterEnd_append (l1 l2 : List Effect) :
    countAdapterEnd (l1 ++ l2) = countAdapterEnd l1 + countAdapterEnd l2 := by
  induction l1 with
  | nil => simp [countAdapterEnd]
  | cons e rest ih =>
    simp [countAdapterEnd, ih]
    omega

theorem downloadGo_countEnd (f : Granule → Except JsErr Granule) (gs : List Granule) :
    countAdapterEnd (downloadGo f gs).snd = 0 := by
  induction gs with
  | nil => simp [downloadGo, countAdapterEnd]
  | cons g rest ih =>
    cases hfg : f g with
    | error e => simp [downloadGo, hfg, countAdapterEnd]
    | ok r => simp [downloadGo, hfg, countAdapterEnd, ih]

theorem downloadRun_countEnd (s : LockState) (b : String) (p : Provider)
    (f : Granule → Except JsErr Granule) (gs : List Granule) :
    countAdapterEnd (downloadRun s b p f gs).snd = 0 :=
  downloadGo_countEnd f gs

theorem downloadRun_eq (s : LockState) (b : String) (p : Provider)
    (f : Granule → Except JsErr Granule) (gs : List Granule) :
    downloadRun s b p f gs = downloadGo f gs := rfl

theorem downloadGo_error (f : Granule → Except JsErr Granule) :
    ∀ (gs : List Granule) (e : JsErr), (downloadGo f gs).fst = Except.error e →
      ∃ g ∈ gs, f g = Except.error e := by
  intro gs
  induction gs with
  | nil => intro e h; simp [downloadGo] at h
  | cons g rest ih =>
    intro e h
    cases hfg : f g with
    | error e0 =>
      simp [downloadGo, hfg] at h
      exact ⟨g, List.mem_cons_self g rest, by rw [hfg, h]⟩
    | ok r =>
      simp [downloadGo, hfg] at h
      cases hrest : (downloadGo f rest).fst with
      | error e1 =>
        rw [hrest] at h
        simp [Except.map] at h
        obtain ⟨g0, hg0, hfg0⟩ := ih e1 hrest
        exact ⟨g0, List.mem_cons_of_mem g hg0, by rw [hfg0, h]⟩
      | ok rs =>
        rw [hrest] at h
        simp [Except.map] at h

theorem downloadGo_ok (f : Granule → Except JsErr Granule) :
    ∀ (gs rs : List Granule), (downloadGo f gs).fst = Except.ok rs →
      rs.length = gs.length ∧
      (∀ i (hi : i < gs.length) (hr : i < rs.length),
        f (gs.get ⟨i, hi⟩) = Except.ok (rs.get ⟨i, hr⟩)) ∧
      (downloadGo f gs).snd = gs.map (fun g => Effect.ingestStart g.granuleId) := by
  intro gs
  induction gs with
  | nil =>
    intro rs h
    simp [downloadGo] at h
    subst h
    simp [downloadGo]
  | cons g rest ih =>
    intro rs h
    cases hfg : f g with
    | error e => simp [downloadGo, hfg] at h
    | ok r =>
      simp [downloadGo, hfg] at h ⊢
      cases hrest : (downloadGo f rest).fst with
      | error e1 => rw [hrest] at h; simp [Except.map] at h
      | ok rs0 =>
        rw [hrest] at h
        simp [Except.map] at h
        obtain ⟨hlen, hpt, htr⟩ := ih rs0 hrest
        subst h
        refine ⟨by simp [hlen], ?_, by simp [htr]⟩
        intro i hi hr
        cases i with
        | zero => simpa using hfg
        | succ j =>
          exact hpt j (by simpa using hi) (by simpa using hr)

theorem pathJoin_data (a b : String) :
    (pathJoin a b).data = a.data ++ ("/".data ++ b.data) := by
  simp [pathJoin, String.data_append, List.append_assoc]

theorem destinationKey_data (sp cid fn : String) :
    (destinationKey sp cid fn).data =
      sp.data ++ ("/".data ++ (cid.data ++ ("/".data ++ fn.data))) := by
  simp [destinationKey, pathJoin, String.data_append, List.append_assoc]

theorem destinationKey_collection_cancel (sp cid cid2 fn : String)
    (h : destinationKey sp cid fn = destinationKey sp cid2 fn) : cid = cid2 := by
  have hd := congrArg String.data h
  rw [destinationKey_data, destinationKey_data] at hd
  exact String.ext (List.append_cancel_right
    (List.append_cancel_left (List.append_cancel_left hd)))

theorem destinationKey_stack_cancel (stack stack2 cid fn : String)
    (h : destinationKey (pathJoin "file-staging" stack) cid fn =
      destinationKey (pathJoin "file-staging" stack2) cid fn) : stack = stack2 := by
  have hd := congrArg String.data h
  rw [destinationKey_data, destinationKey_data, pathJoin_data, pathJoin_data] at hd
  simp only [List.append_assoc] at hd
  exact String.ext (List.append_cancel_right
    (List.append_cancel_left (List.append_cancel_left hd)))

theorem alookup_ainsert_self {κ α : Type} [DecidableEq κ]
    (l : List (κ × α)) (k : κ) (v : α) :
    alookup (ainsert l k v) k = some v := by
  simp [alookup, ainsert]

theorem alookup_ainsert_ne {κ α : Type} [DecidableEq κ]
    (l : List (κ × α)) (k k0 : κ) (v : α) (h : k ≠ k0) :
    alookup (ainsert l k0 v) k = alookup l k := by
  have hne : k0 ≠ k := fun hc => h (Eq.symm hc)
  simp [alookup, ainsert, hne]

theorem alookup_aremove_ne {κ α : Type} [DecidableEq κ]
    (l : List (κ × α)) (k k0 : κ) (h : k ≠ k0) :
    alookup (aremove l k0) k = alookup l k := by
  induction l with
  | nil => rfl
  | cons p rest ih =>
    simp only [aremove]
    by_cases hp : p.fst = k0
    · rw [if_pos hp, ih]
      have hpk : p.fst ≠ k := fun hc => h (by rw [← hc, hp])
      simp [alookup, hpk]
    · rw [if_neg hp]
      simp only [alookup]
      by_cases hkp : p.fst = k
      · rw [if_pos hkp, if_pos hkp]
      · rw [if_neg hkp, if_neg hkp, ih]

theorem acquire_some (tbl tbl2 : List (LockKey × LockEntry)) (k : LockKey)
    (o : String) (now ttl : Nat) (h : acquire tbl k o now ttl = some tbl2) :
    tbl2 = ainsert tbl k ⟨o, now + ttl⟩ := by
  unfold acquire at h
  cases hl : alookup tbl k with
  | none => rw [hl] at h; exact (Option.some.injEq _ _ ▸ h).symm
  | some e =>
    rw [hl] at h
    by_cases hn : now < e.expiresAt
    · simp [hn] at h
    · simp [hn] at h
      exact h.symm

theorem runLockOps_preserves (k : LockKey) (e : LockEntry) :
    ∀ (ops : List LockOp) (tbl : List (LockKey × LockEntry)),
      alookup tbl k = some e →
      (∀ op ∈ ops, op ≠ LockOp.rel k) →
      (∀ o n tt, LockOp.acq k o n tt ∈ ops → n < e.expiresAt) →
      alookup (runLockOps tbl ops) k = some e := by
  intro ops
  induction ops with
  | nil => intro tbl h _ _; exact h
  | cons op rest ih =>
    intro tbl h hrel hacq
    have hstep : alookup (applyLockOp tbl op) k = some e := by
      cases op with
      | acq k0 o n tt =>
        by_cases hk : k0 = k
        · subst hk
          have hn : n < e.expiresAt := hacq o n tt (List.mem_cons_self _ _)
          simp [applyLockOp, acquire, h, hn]
        · cases hacq2 : acquire tbl k0 o n tt with
          | none => simpa [applyLockOp, hacq2] using h
          | some tbl2 =>
            have h2 : tbl2 = ainsert tbl k0 ⟨o, n + tt⟩ :=
              acquire_some tbl tbl2 k0 o n tt hacq2
            rw [show applyLockOp tbl (LockOp.acq k0 o n tt) = tbl2 by
              simp [applyLockOp, hacq2]]
            rw [h2, alookup_ainsert_ne _ _ _ _ (fun hc => hk (Eq.symm hc))]
            exact h
      | rel k0 =>
        have hk : k ≠ k0 := by
          intro hc
          exact hrel (LockOp.rel k0) (List.mem_cons_self _ _) (by rw [hc])
        rw [show applyLockOp tbl (LockOp.rel k0) = aremove tbl k0 by
          simp [applyLockOp, release]]
        rw [alookup_aremove_ne _ _ _ hk]
        exact h
    exact ih (applyLockOp tbl op) hstep
      (fun op2 hm => hrel op2 (List.mem_cons_of_mem _ hm))
      (fun o n tt hm => hacq o n tt (List.mem_cons_of_mem _ hm))

/-- Claim C1 (code bug): when the collection configuration specifies no
duplicate-handling mode, `syncGranule` resolves the mode to `null`, not
`error`, and passes `null` to the ingest adapter constructor: at the failing
input the resolved value is `none` and the adapter-construction effect
carries `none`, which differs from `some "error"`. -/
theorem syncGranule_duplicateHandling_null :
    resolveDuplicateHandling eventNoDH.meta.collection = none ∧
    (syncGranuleRun mkNop lockFree eventNoDH).snd =
      [Effect.constructAdapter none "file-staging/test-stack"] ∧
    (none : Option String) ≠ some "error" := by
  refine ⟨rfl, rfl, by decide⟩

/-- Claim C2 (counterexample): with the per-(provider, granule) lock key held
and unexpired for the whole maximum wait, `download` still succeeds and
ingests the granule instead of failing with `ResourcesLockedError`. -/
theorem download_lock_bypass_cex :
    lockHeldForever.held = true ∧
    (downloadRun lockHeldForever "bucket-x" provX ingestOk [gA]).fst = Except.ok [gA] ∧
    (downloadRun lockHeldForever "bucket-x" provX ingestOk [gA]).snd =
      [Effect.ingestStart "granule-A"] := by
  refine ⟨rfl, rfl, rfl⟩

/-- Claim C2 (amended): `download` ignores the lock-table state entirely (the
lock acquisition is a hardcoded bypass), so its result and effects are
identical for any two lock states, and it can only produce a
`ResourcesLockedError` if an individual ingest itself throws one. -/
theorem download_ignores_lock_state (s t : LockState) (bucket : String)
    (provider : Provider) (f : Granule → Except JsErr Granule) (gs : List Granule) :
    downloadRun s bucket provider f gs = downloadRun t bucket provider f gs ∧
    ∀ m, (downloadRun s bucket provider f gs).fst =
        Except.error (JsErr.resourcesLocked m) →
      ∃ g ∈ gs, f g = Except.error (JsErr.resourcesLocked m) :=
  ⟨rfl, fun _ h => downloadGo_error f gs _ h⟩

/-- Witness for `download_ignores_lock_state` at a concrete held lock. -/
theorem download_ignores_lock_state_witness :
    downloadRun lockHeldForever "bucket-x" provX ingestOk [gA] =
      downloadRun lockFree "bucket-x" provX ingestOk [gA] :=
  (download_ignores_lock_state lockHeldForever lockFree "bucket-x" provX ingestOk [gA]).1

/-- Claim C3: whenever `syncGranule` constructs an ingest adapter (a provider
is present) and the adapter defines `end`, the teardown is invoked exactly
once, on both the success and the failure exit path of `download`. -/
theorem syncGranule_teardown_once (mkAdapter : AdapterArgs → Adapter)
    (lockState : LockState) (event : Event) (p : Provider)
    (hp : event.meta.provider = some p)
    (hEnd : ∀ a, (mkAdapter a).hasEnd = true) :
    countAdapterEnd (syncGranuleRun mkAdapter lockState event).snd = 1 := by
  simp only [syncGranuleRun, hp]
  split
  · simp [countAdapterEnd, countAdapterEnd_append, downloadRun_countEnd, hEnd]
  · simp [countAdapterEnd, countAdapterEnd_append, downloadRun_countEnd, hEnd]

/-- Witness for `syncGranule_teardown_once` at a concrete event/adapter. -/
theorem syncGranule_teardown_once_witness :
    countAdapterEnd (syncGranuleRun mkConstEnd lockFree eventNoDH).snd = 1 :=
  syncGranule_teardown_once mkConstEnd lockFree eventNoDH provX rfl (fun _ => rfl)

/-- Claim C4 (counterexample): two `download` invocations whose first,
successfully ingested granules differ throw the exact same error payload when
the second granule fails, so the granules already ingested are not
identifiable from the thrown error. -/
theorem download_error_drops_progress_cex :
    (downloadRun lockFree "bucket-x" provX ingestFailBad [gA, gBad]).fst =
      Except.error e0 ∧
    (downloadRun lockFree "bucket-x" provX ingestFailBad [gB, gBad]).fst =
      Except.error e0 ∧
    gA ≠ gB ∧
    ingestFailBad gA = Except.ok gA ∧
    ingestFailBad gB = Except.ok gB := by
  refine ⟨rfl, rfl, by decide, rfl, rfl⟩

/-- Claim C4 (amended): when ingest of a granule fails, `download` rethrows
that granule's error unchanged — the thrown payload is exactly an error
produced by `ingest.ingest` on one of the input granules, and the partial
progress is discarded rather than attached to it. -/
theorem download_error_unchanged (s : LockState) (bucket : String)
    (provider : Provider) (f : Granule → Except JsErr Granule)
    (gs : List Granule) (e : JsErr)
    (h : (downloadRun s bucket provider f gs).fst = Except.error e) :
    ∃ g ∈ gs, f g = Except.error e :=
  downloadGo_error f gs e h

/-- Witness for `download_error_unchanged` at a concrete failing list. -/
theorem download_error_unchanged_witness :
    ∃ g ∈ [gA, gBad], ingestFailBad g = Except.error e0 :=
  download_error_unchanged lockFree "bucket-x" provX ingestFailBad [gA, gBad] e0 rfl

/-- Claim C5: the staging destination key of a file is the deterministic
concatenation of the task's stack-scoped prefix (`file-staging/<stack>`, as
computed in `syncGranule`), the collection identifier and the file name —
never randomly generated — and it is genuinely scoped by both the stack and
the collection: keys for different stacks differ, and keys for different
collection identifiers differ, so re-ingestion of the same logical file
always targets the same location. -/
theorem staging_destination_deterministic_and_scoped (stack : String)
    (c : Collection) (fileName : String) :
    destinationKey (pathJoin "file-staging" stack)
        (constructCollectionId c.name c.version) fileName =
      "file-staging" ++ "/" ++ stack ++ "/" ++
        constructCollectionId c.name c.version ++ "/" ++ fileName ∧
    (∀ stack2 : String, stack ≠ stack2 →
      destinationKey (pathJoin "file-staging" stack)
          (constructCollectionId c.name c.version) fileName ≠
        destinationKey (pathJoin "file-staging" stack2)
          (constructCollectionId c.name c.version) fileName) ∧
    (∀ c2 : Collection,
      constructCollectionId c.name c.version ≠ constructCollectionId c2.name c2.version →
      destinationKey (pathJoin "file-staging" stack)
          (constructCollectionId c.name c.version) fileName ≠
        destinationKey (pathJoin "file-staging" stack)
          (constructCollectionId c2.name c2.version) fileName) := by
  refine ⟨rfl, ?_, ?_⟩
  · intro stack2 hne heq
    exact hne (destinationKey_stack_cancel stack stack2 _ _ heq)
  · intro c2 hne heq
    exact hne (destinationKey_collection_cancel _ _ _ _ heq)

/-- Witness for `staging_destination_deterministic_and_scoped`: two
collections with different identifiers stage the same file name to different
destinations under the same stack. -/
theorem staging_destination_deterministic_and_scoped_witness :
    destinationKey (pathJoin "file-staging" "test-stack")
        (constructCollectionId "MOD09GQ" "006") "f.hdf" ≠
      destinationKey (pathJoin "file-staging" "test-stack")
        (constructCollectionId "OTHER-COLLECTION" "001") "f.hdf" :=
  (staging_destination_deterministic_and_scoped "test-stack" collNoDH "f.hdf").2.2
    collOther (by decide)

/-- Claim C6 (counterexample): an error whose string form contains
`ECONNREFUSED` and which also carries `details.status = 'timeout'` is mapped
by `syncGranule` to `RemoteResourceError`, not to the connection-timeout
error the claim requires for every `details.status = 'timeout'` error. -/
theorem syncGranule_error_precedence_cex :
    (syncGranuleRun mkRefusedTimeout lockFree eventOneGranule).fst =
      Except.error (JsErr.remoteResource "Connection Refused") ∧
    (JsErr.raw "Error" "connect ECONNREFUSED 10.0.0.1:21" (some "timeout")).detailsStatus =
      some "timeout" ∧
    JsErr.remoteResource "Connection Refused" ≠
      JsErr.connectionTimeout "connection Timed out" := by
  refine ⟨rfl, rfl, by decide⟩

/-- Claim C6 (amended): errors containing `ECONNREFUSED` in their string form
are rethrown as `RemoteResourceError`; errors not containing `ECONNREFUSED`
but carrying `details.status = 'timeout'` are rethrown as
`ConnectionTimeout`; every other error is rethrown unchanged. -/
theorem mapDownloadError_taxonomy (e : JsErr) :
    (strContains e.toStr "ECONNREFUSED" = true →
      mapDownloadError e = JsErr.remoteResource "Connection Refused") ∧
    (strContains e.toStr "ECONNREFUSED" = false →
      e.detailsStatus = some "timeout" →
      mapDownloadError e = JsErr.connectionTimeout "connection Timed out") ∧
    (strContains e.toStr "ECONNREFUSED" = false →
      e.detailsStatus ≠ some "timeout" →
      mapDownloadError e = e) := by
  refine ⟨fun h1 => ?_, fun h1 h2 => ?_, fun h1 h2 => ?_⟩
  · simp [mapDownloadError, h1]
  · simp [mapDownloadError, h1, h2]
  · simp [mapDownloadError, h1, h2]

/-- Witness for `mapDownloadError_taxonomy` at a concrete timeout error. -/
theorem mapDownloadError_taxonomy_witness :
    mapDownloadError (JsErr.raw "Error" "socket hang up" (some "timeout")) =
      JsErr.connectionTimeout "connection Timed out" :=
  (mapDownloadError_taxonomy (JsErr.raw "Error" "socket hang up" (some "timeout"))).2.1
    (by decide) rfl

/-- Claim C7: when the event metadata contains no provider, `syncGranule`
rejects with `ProviderNotFound` and performs no effect at all: no adapter is
constructed, no ingest starts, and the staging area is untouched. -/
theorem syncGranule_no_provider (mkAdapter : AdapterArgs → Adapter)
    (lockState : LockState) (event : Event)
    (h : event.meta.provider = none) :
    syncGranuleRun mkAdapter lockState event =
      (Except.error (JsErr.providerNotFound "Provider info not provided"), []) := by
  simp [syncGranuleRun, h]

/-- Witness for `syncGranule_no_provider` at a concrete event. -/
theorem syncGranule_no_provider_witness :
    syncGranuleRun mkNop lockFree eventNoProv =
      (Except.error (JsErr.providerNotFound "Provider info not provided"), []) :=
  syncGranule_no_provider mkNop lockFree eventNoProv rfl

/-- Claim C8: refetching a file whose destination object exists with a
different checksum under mode `skip` succeeds without error, leaves the whole
staging store unchanged (no overwrite and no extra copy), and records
`duplicate_found = true` on the file's output record. -/
theorem skip_mode_frame (store : List (String × StagedFile))
    (incoming : IncomingFile) (ex : StagedFile)
    (hex : alookup store incoming.destKey = some ex)
    (hck : ex.checksum ≠ incoming.checksum) :
    ingestFileSpec store incoming DuplicateHandlingMode.skip =
      Except.ok (store, ⟨incoming.destKey, true⟩) := by
  simp [ingestFileSpec, evaluate, hex]

/-- Witness for `skip_mode_frame` at a concrete store and refetch. -/
theorem skip_mode_frame_witness :
    ingestFileSpec storeW incomingW DuplicateHandlingMode.skip =
      Except.ok (storeW, ⟨incomingW.destKey, true⟩) :=
  skip_mode_frame storeW incomingW ⟨"old-bytes", 111⟩ (by decide) (by decide)

/-- Claim C9: the lock table is at-most-one-holder.  If an acquisition of a
key succeeds, then any second acquisition of the same key fails as long as it
happens before the first holder's entry expires and no interleaved operation
releases the key (interleaved operations on other keys, or failing
re-acquisitions of this key, are allowed). -/
theorem lock_at_most_one_holder (tbl : List (LockKey × LockEntry)) (k : LockKey)
    (o1 o2 : String) (t1 ttl t2 ttl2 : Nat) (ops : List LockOp)
    (tbl1 : List (LockKey × LockEntry))
    (hacq : acquire tbl k o1 t1 ttl = some tbl1)
    (hrel : ∀ op ∈ ops, op ≠ LockOp.rel k)
    (hacqs : ∀ o n tt, LockOp.acq k o n tt ∈ ops → n < t1 + ttl)
    (ht2 : t2 < t1 + ttl) :
    acquire (runLockOps tbl1 ops) k o2 t2 ttl2 = none := by
  have h1 : tbl1 = ainsert tbl k ⟨o1, t1 + ttl⟩ :=
    acquire_some tbl tbl1 k o1 t1 ttl hacq
  have h2 : alookup tbl1 k = some ⟨o1, t1 + ttl⟩ := by
    rw [h1]
    exact alookup_ainsert_self tbl k _
  have h3 : alookup (runLockOps tbl1 ops) k = some ⟨o1, t1 + ttl⟩ :=
    runLockOps_preserves k ⟨o1, t1 + ttl⟩ ops tbl1 h2 hrel hacqs
  simp [acquire, h3, ht2]

/-- Witness for `lock_at_most_one_holder` at a concrete contention. -/
theorem lock_at_most_one_holder_witness :
    acquire (runLockOps tbl1W opsW) kW "w2" 80 100 = none :=
  lock_at_most_one_holder [] kW "w1" "w2" 5 100 80 100 opsW tbl1W
    (by decide)
    (by decide)
    (by
      intro o n tt hmem
      simp only [opsW, List.mem_singleton] at hmem
      injection hmem with hk _ _ _
      exact absurd hk (by decide))
    (by decide)

/-- Claim C10: `download` processes the granule list sequentially and, on
success, returns exactly one updated granule per input granule, in input
order: the effect trace is the ingest of every granule in the input order,
the output has the input's length, and its i-th element is the ingest result
of the i-th input granule. -/
theorem download_sequential_ordered (lockState : LockState) (bucket : String)
    (provider : Provider) (f : Granule → Except JsErr Granule)
    (gs rs : List Granule)
    (h : (downloadRun lockState bucket provider f gs).fst = Except.ok rs) :
    rs.length = gs.length ∧
    (∀ i (hi : i < gs.length) (hr : i < rs.length),
      f (gs.get ⟨i, hi⟩) = Except.ok (rs.get ⟨i, hr⟩)) ∧
    (downloadRun lockState bucket provider f gs).snd =
      gs.map (fun g => Effect.ingestStart g.granuleId) :=
  downloadGo_ok f gs rs h

/-- Witness for `download_sequential_ordered` at a concrete two-granule
list. -/
theorem download_sequential_ordered_witness :
    ([gA, gB] : List Granule).length = ([gA, gB] : List Granule).length ∧
    (∀ i (hi : i < ([gA, gB] : List Granule).length)
      (hr : i < ([gA, gB] : List Granule).length),
      ingestOk (([gA, gB] : List Granule).get ⟨i, hi⟩) =
        Except.ok (([gA, gB] : List Granule).get ⟨i, hr⟩)) ∧
    (downloadRun lockFree "bucket-x" provX ingestOk [gA, gB]).snd =
      ([gA, gB] : List Granule).map (fun g => Effect.ingestStart g.granuleId) :=
  download_sequential_ordered lockFree "bucket-x" provX ingestOk [gA, gB] [gA, gB] rfl

end Cumulus
